import Mathlib

/-!
Shallow embedding of the Graphcore tutorial scripts and verification of the
spec's claims about them.  Each definition is translated from one place in
the Python sources; comments name the file and lines it embeds.
-/

namespace Tutorials

/-! ### Keras demo (`tutorials/tensorflow2/keras/demo_code_only.py`) -/

namespace KerasDemo

/-- Embeds `make_divisible` (demo lines 87-88):
`return number - number % divisor`.  Python raises `ZeroDivisionError`
when `divisor == 0`; the embedding returns `none` there. -/
def make_divisible (number divisor : Nat) : Option Nat :=
  if divisor = 0 then none else some (number - number % divisor)

/-- `batch_size = 64` (demo line 26). -/
def batch_size : Nat := 64

/-- `num_ipus = num_replicas = 2` in the replication section (demo line 154). -/
def num_replicas : Nat := 2

/-- Replication section (demo lines 160/162 and 167/169):
`steps_per_execution = data_len // (batch_size * num_replicas)` rounded
down to a multiple of `num_replicas` by `make_divisible`. -/
def replication_steps_per_execution (data_len : Nat) : Option Nat :=
  make_divisible (data_len / (batch_size * num_replicas)) num_replicas

/-- Replication section length adjustment (demo lines 159-164 and 166-171):
computes the steps-per-execution value and then truncates the dataset
length with `make_divisible(data_len, steps_per_execution * batch_size)`.
Returns the pair (steps_per_execution, adjusted length). -/
def replication_adjust (data_len : Nat) : Option (Nat × Nat) :=
  (replication_steps_per_execution data_len).bind fun spe =>
    (make_divisible data_len (spe * batch_size)).map fun len2 => (spe, len2)

/-- Pipelining section (demo lines 196-198): `num_ipus = 2`,
`num_replicas = num_ipus // 2`. -/
def pipeline_num_replicas : Nat := 2 / 2

/-- `gradient_accumulation_steps_per_replica = 8` (demo line 198) times
`num_replicas` (demo line 202). -/
def total_gradient_accumulation_steps : Nat := 8 * pipeline_num_replicas

/-- Pipelining section (demo lines 206/208 and 213/215):
`steps_per_execution = data_len // (batch_size * num_replicas)` rounded
down to a multiple of `total_gradient_accumulation_steps`. -/
def pipeline_steps_per_execution (data_len : Nat) : Option Nat :=
  make_divisible (data_len / (batch_size * pipeline_num_replicas))
    total_gradient_accumulation_steps

/-- Pipelining section length adjustment (demo lines 205-210 and 212-217). -/
def pipeline_adjust (data_len : Nat) : Option (Nat × Nat) :=
  (pipeline_steps_per_execution data_len).bind fun spe =>
    (make_divisible data_len (spe * batch_size)).map fun len2 => (spe, len2)

end KerasDemo

/-- Helper: the value computed by `make_divisible` is divisible by the
divisor (`n - n % d = d * (n / d)`). -/
theorem sub_mod_eq_div_mul (n d : Nat) : n - n % d = d * (n / d) :=
  Nat.sub_eq_of_eq_add (Nat.div_add_mod n d).symm

/-- Helper: divisor divides `n - n % d`. -/
theorem dvd_sub_mod_self (n d : Nat) : d ∣ (n - n % d) :=
  ⟨n / d, sub_mod_eq_div_mul n d⟩

/-- C3: for every non-negative `number` and positive `divisor`,
`make_divisible number divisor` returns `number - number % divisor`, which
is the largest multiple of `divisor` that is less than or equal to
`number`. -/
theorem make_divisible_rounds_down (n d : Nat) (hd : 0 < d) :
    KerasDemo.make_divisible n d = some (n - n % d) ∧
    d ∣ (n - n % d) ∧ n - n % d ≤ n ∧
    ∀ m, d ∣ m → m ≤ n → m ≤ n - n % d := by
  refine ⟨by simp [KerasDemo.make_divisible, Nat.pos_iff_ne_zero.mp hd],
    dvd_sub_mod_self n d, Nat.sub_le _ _, ?_⟩
  intro m hm hmn
  obtain ⟨k, rfl⟩ := hm
  rw [sub_mod_eq_div_mul]
  exact Nat.mul_le_mul_left d
    (Nat.le_div_iff_mul_le hd |>.mpr (by rw [Nat.mul_comm]; exact hmn))

/-- Helper: what a successful run of the common length-adjustment pattern
(compute a steps-per-execution value with `make_divisible`, then truncate
the dataset length with `make_divisible` again) guarantees: the adjusted
length is a multiple of `spe * bs`, and `spe` is a multiple of `d2`. -/
theorem adjust_spec (bs len d1 d2 spe len2 : Nat)
    (h : ((KerasDemo.make_divisible (len / d1) d2).bind fun s =>
          (KerasDemo.make_divisible len (s * bs)).map fun l => (s, l))
          = some (spe, len2)) :
    (spe * bs) ∣ len2 ∧ d2 ∣ spe := by
  rw [Option.bind_eq_some] at h
  obtain ⟨s, hs, hmap⟩ := h
  rw [Option.map_eq_some'] at hmap
  obtain ⟨l, hl, hpair⟩ := hmap
  injection hpair with hps hpl
  subst hps; subst hpl
  unfold KerasDemo.make_divisible at hs hl
  split at hs
  · exact absurd hs (by simp)
  · split at hl
    · exact absurd hl (by simp)
    · obtain rfl := Option.some.inj hs
      obtain rfl := Option.some.inj hl
      exact ⟨dvd_sub_mod_self _ _, dvd_sub_mod_self _ _⟩

/-- C2 counterexample: in the replication section (`batch_size = 64`,
`num_replicas = 2`), an initial dataset length of 384 yields
steps-per-execution 2 and adjusted length 384, which is NOT a multiple of
batch size times steps-per-execution times replica count (256). -/
theorem replication_adjust_counterexample :
    KerasDemo.replication_adjust 384 = some (2, 384) ∧
    ¬ (KerasDemo.batch_size * 2 * KerasDemo.num_replicas ∣ 384) := by
  decide

/-- C2 amended: in the replication section the adjusted dataset length is
an exact multiple of batch size times the steps-per-execution value (the
steps-per-execution value being itself a multiple of the replica count);
in the pipelining section (replica count 1) the adjusted length is an
exact multiple of batch size times steps-per-execution times replica
count, with steps-per-execution a multiple of the total gradient
accumulation steps. -/
theorem adjusted_length_multiple (len spe len2 lenP speP lenP2 : Nat)
    (hr : KerasDemo.replication_adjust len = some (spe, len2))
    (hp : KerasDemo.pipeline_adjust lenP = some (speP, lenP2)) :
    (KerasDemo.batch_size * spe) ∣ len2 ∧ KerasDemo.num_replicas ∣ spe ∧
    (KerasDemo.batch_size * speP * KerasDemo.pipeline_num_replicas) ∣ lenP2 ∧
    KerasDemo.total_gradient_accumulation_steps ∣ speP := by
  unfold KerasDemo.replication_adjust
    KerasDemo.replication_steps_per_execution at hr
  unfold KerasDemo.pipeline_adjust
    KerasDemo.pipeline_steps_per_execution at hp
  obtain ⟨hd1, hd2⟩ := adjust_spec _ _ _ _ _ _ hr
  obtain ⟨he1, he2⟩ := adjust_spec _ _ _ _ _ _ hp
  refine ⟨by rwa [Nat.mul_comm] at hd1, hd2, ?_, he2⟩
  have : KerasDemo.batch_size * speP * KerasDemo.pipeline_num_replicas
      = speP * KerasDemo.batch_size := by
    simp [KerasDemo.pipeline_num_replicas, Nat.mul_comm]
  rwa [this]

/-- Witness for C2 amended at the MNIST training-set length 60000. -/
theorem adjusted_length_multiple_witness :
    (KerasDemo.batch_size * 468) ∣ 59904 ∧ KerasDemo.num_replicas ∣ 468 ∧
    (KerasDemo.batch_size * 936 * KerasDemo.pipeline_num_replicas) ∣ 59904 ∧
    KerasDemo.total_gradient_accumulation_steps ∣ 936 :=
  adjusted_length_multiple 60000 468 59904 60000 936 59904
    (by decide) (by decide)

/-- C10: `make_divisible` fails (Python: raises `ZeroDivisionError`)
exactly when the divisor is 0; in the replication section the computed
steps-per-execution value is 0 for every dataset length below
`batch_size * num_replicas`; and whenever the computed steps-per-execution
value is positive the length adjustment never divides by zero. -/
theorem make_divisible_zero_divisor (n d len lenR spe : Nat)
    (h1 : len < KerasDemo.batch_size * KerasDemo.num_replicas)
    (h2 : KerasDemo.replication_steps_per_execution lenR = some spe)
    (h3 : 0 < spe) :
    (KerasDemo.make_divisible n d = none ↔ d = 0) ∧
    KerasDemo.replication_steps_per_execution len = some 0 ∧
    (KerasDemo.make_divisible lenR (spe * KerasDemo.batch_size)).isSome
      = true := by
  refine ⟨?_, ?_, ?_⟩
  · unfold KerasDemo.make_divisible
    split <;> simp_all
  · have h0 : len / (KerasDemo.batch_size * KerasDemo.num_replicas) = 0 :=
      Nat.div_eq_of_lt h1
    simp only [KerasDemo.num_replicas] at h0
    simp [KerasDemo.replication_steps_per_execution,
      KerasDemo.make_divisible, KerasDemo.num_replicas, h0]
  · have hne : spe * KerasDemo.batch_size ≠ 0 :=
      Nat.mul_ne_zero (Nat.pos_iff_ne_zero.mp h3) (by decide)
    simp [KerasDemo.make_divisible, hne]

/-- Witness for C10 at `n = 7`, `d = 0`, lengths 100 and 60000. -/
theorem make_divisible_zero_divisor_witness :
    (KerasDemo.make_divisible 7 0 = none ↔ 0 = 0) ∧
    KerasDemo.replication_steps_per_execution 100 = some 0 ∧
    (KerasDemo.make_divisible 60000 (468 * KerasDemo.batch_size)).isSome
      = true :=
  make_divisible_zero_divisor 7 0 100 60000 468
    (by decide) (by decide) (by decide)

/-- Witness for C3 at `number = 10`, `divisor = 4`. -/
theorem make_divisible_rounds_down_witness :
    KerasDemo.make_divisible 10 4 = some (10 - 10 % 4) ∧
    4 ∣ (10 - 10 % 4) ∧ 10 - 10 % 4 ≤ 10 :=
  ⟨(make_divisible_rounds_down 10 4 (by decide)).1,
   (make_divisible_rounds_down 10 4 (by decide)).2.1,
   (make_divisible_rounds_down 10 4 (by decide)).2.2.1⟩

/-! ### PopTorch MNIST script
(`simple_applications/pytorch/mnist/mnist_poptorch_code_only.py`) -/

namespace MnistPoptorch

/-- Values supplied on the command line; `none` means the flag was not
given, so argparse falls back to the declared default. -/
structure Cli where
  batch_size : Option Int
  device_iterations : Option Int
  test_batch_size : Option Int
  epochs : Option Int
  lr : Option Rat

/-- Result of `parser.parse_args()`. -/
structure ParsedOpts where
  batch_size : Int
  device_iterations : Int
  test_batch_size : Int
  epochs : Int
  lr : Rat

/-- Embeds the argparse declarations (script lines 18-24): the five flags
`--batch-size`, `--device-iterations`, `--test-batch-size`, `--epochs`
and `--lr` with defaults 8, 50, 80, 10 and 0.05. -/
def parse_args (c : Cli) : ParsedOpts :=
  { batch_size := c.batch_size.getD 8
    device_iterations := c.device_iterations.getD 50
    test_batch_size := c.test_batch_size.getD 80
    epochs := c.epochs.getD 10
    lr := c.lr.getD (1 / 20) }

/-- The hyperparameters in effect after script lines 26-32.  Lines 26-30
copy the parsed values; line 32 then rebinds `device_iterations = 50`. -/
structure Hyper where
  learning_rate : Rat
  epochs : Int
  batch_size : Int
  test_batch_size : Int
  device_iterations : Int

/-- Embeds script lines 26-32 (assignments from `opts`, then the literal
reassignment `device_iterations = 50` on line 32). -/
def hyperparameters (opts : ParsedOpts) : Hyper :=
  let learning_rate := opts.lr
  let epochs := opts.epochs
  let batch_size := opts.batch_size
  let test_batch_size := opts.test_batch_size
  let device_iterations := opts.device_iterations
  let device_iterations := 50
  { learning_rate, epochs, batch_size, test_batch_size, device_iterations }

/-- The slice of `poptorch.Options` the script touches.  A fresh
`poptorch.Options()` has 1 device iteration and per-replica output mode. -/
structure Options where
  deviceIterationsVal : Int := 1
  outputModeAll : Bool := false

/-- Embeds `.deviceIterations(n)` (builder method returning the updated
options). -/
def Options.deviceIterations (o : Options) (n : Int) : Options :=
  { o with deviceIterationsVal := n }

/-- Embeds `.outputMode(poptorch.OutputMode.All)`. -/
def Options.outputModeAllSet (o : Options) : Options :=
  { o with outputModeAll := true }

/-- Embeds script lines 57-58: options handed to the training
`poptorch.DataLoader`. -/
def loader_training_opts (h : Hyper) : Options :=
  Options.deviceIterations {} h.device_iterations

/-- Configuration the script passes to `poptorch.DataLoader`
(script lines 60-66). -/
structure DataLoaderCfg where
  options : Options
  batch_size : Int
  shuffle : Bool
  drop_last : Bool

/-- Embeds the training `poptorch.DataLoader` construction
(script lines 60-66). -/
def training_data (h : Hyper) : DataLoaderCfg :=
  { options := loader_training_opts h
    batch_size := h.batch_size
    shuffle := true
    drop_last := true }

/-- Embeds script lines 133-135: the options handed to
`poptorch.trainingModel`. -/
def model_training_opts (h : Hyper) : Options :=
  Options.outputModeAllSet (Options.deviceIterations {} h.device_iterations)

/-- Configuration the script passes to `poptorch.trainingModel`
(script lines 139-143): the options and the SGD learning rate. -/
structure TrainingModelCfg where
  options : Options
  lr : Rat

/-- Embeds `poptorch.trainingModel(model_with_loss, training_opts,
optimizer=optim.SGD(..., lr=learning_rate))` (script lines 139-143). -/
def training_model (h : Hyper) : TrainingModelCfg :=
  { options := model_training_opts h, lr := h.learning_rate }

/-- Embeds the `TrainingModelWithLoss` module (script lines 115-127):
`__init__` stores the wrapped model and `torch.nn.CrossEntropyLoss()`. -/
structure TrainingModelWithLoss (α β γ δ : Type) where
  model : α → β
  loss : β → γ → δ

/-- Embeds `TrainingModelWithLoss.forward` (script lines 121-127):
compute `output = self.model(args)`; if `labels is None` return `output`,
else return `(output, self.loss(output, labels))`. -/
def TrainingModelWithLoss.forward {α β γ δ : Type}
    (self : TrainingModelWithLoss α β γ δ) (args : α) (labels : Option γ) :
    β ⊕ (β × δ) :=
  let output := self.model args
  match labels with
  | none => Sum.inl output
  | some l => Sum.inr (output, self.loss output l)

/-- Embeds the test-loop accumulator `sum_acc` (script lines 166-170):
`sum_acc` starts at 0.0 and each batch adds `accuracy(output, labels)`. -/
def sum_acc (accs : List Rat) : Rat :=
  accs.foldl (fun s a => s + a) 0

/-- Embeds the printed test-set accuracy (script line 172):
`sum_acc / len(test_data)`, where `len(test_data)` is the number of
batches iterated. -/
def reported_test_accuracy (accs : List Rat) : Rat :=
  sum_acc accs / (accs.length : Rat)

end MnistPoptorch

/-- C1 counterexample: supplying 7 on `--device-iterations` does not make
7 the number of device iterations used: line 32 of the script rebinds
`device_iterations = 50`, so the training options and the training data
loader are configured with 50, not 7. -/
theorem device_iterations_flag_ignored :
    (MnistPoptorch.hyperparameters (MnistPoptorch.parse_args
      ⟨none, some 7, none, none, none⟩)).device_iterations = 50 ∧
    (MnistPoptorch.model_training_opts (MnistPoptorch.hyperparameters
      (MnistPoptorch.parse_args ⟨none, some 7, none, none, none⟩))
      ).deviceIterationsVal ≠ 7 ∧
    (MnistPoptorch.training_data (MnistPoptorch.hyperparameters
      (MnistPoptorch.parse_args ⟨none, some 7, none, none, none⟩))
      ).options.deviceIterationsVal ≠ 7 := by
  refine ⟨rfl, by decide, by decide⟩

/-- C1 amended: the five numeric flags are exposed with defaults
(8, 50, 80, 10, 0.05), and the values supplied on `--batch-size`,
`--test-batch-size`, `--epochs` and `--lr` are the hyperparameters used
to configure training; the parsed `--device-iterations` value, however,
is overwritten by the hard-coded constant 50, so the training options and
the training data loader always use 50 device iterations. -/
theorem cli_flags_configure_training (c : MnistPoptorch.Cli)
    (vb vt ve : Int) (vl : Rat)
    (hb : c.batch_size = some vb) (ht : c.test_batch_size = some vt)
    (he : c.epochs = some ve) (hl : c.lr = some vl) :
    MnistPoptorch.parse_args ⟨none, none, none, none, none⟩
      = ⟨8, 50, 80, 10, 1 / 20⟩ ∧
    (MnistPoptorch.hyperparameters (MnistPoptorch.parse_args c)).batch_size
      = vb ∧
    (MnistPoptorch.hyperparameters (MnistPoptorch.parse_args c)
      ).test_batch_size = vt ∧
    (MnistPoptorch.hyperparameters (MnistPoptorch.parse_args c)).epochs
      = ve ∧
    (MnistPoptorch.training_model (MnistPoptorch.hyperparameters
      (MnistPoptorch.parse_args c))).lr = vl ∧
    (MnistPoptorch.training_data (MnistPoptorch.hyperparameters
      (MnistPoptorch.parse_args c))).batch_size = vb ∧
    (MnistPoptorch.hyperparameters (MnistPoptorch.parse_args c)
      ).device_iterations = 50 ∧
    (MnistPoptorch.training_model (MnistPoptorch.hyperparameters
      (MnistPoptorch.parse_args c))).options.deviceIterationsVal = 50 ∧
    (MnistPoptorch.training_data (MnistPoptorch.hyperparameters
      (MnistPoptorch.parse_args c))).options.deviceIterationsVal = 50 := by
  simp [MnistPoptorch.parse_args, MnistPoptorch.hyperparameters,
    MnistPoptorch.training_model, MnistPoptorch.training_data,
    MnistPoptorch.model_training_opts, MnistPoptorch.loader_training_opts,
    MnistPoptorch.Options.deviceIterations,
    MnistPoptorch.Options.outputModeAllSet, hb, ht, he, hl]

/-- Witness for C1 amended with all four honoured flags supplied. -/
theorem cli_flags_configure_training_witness :
    MnistPoptorch.parse_args ⟨none, none, none, none, none⟩
      = ⟨8, 50, 80, 10, 1 / 20⟩ ∧
    (MnistPoptorch.hyperparameters (MnistPoptorch.parse_args
      ⟨some 4, some 25, some 16, some 2, some (1 / 10)⟩)).batch_size
      = 4 ∧
    (MnistPoptorch.hyperparameters (MnistPoptorch.parse_args
      ⟨some 4, some 25, some 16, some 2, some (1 / 10)⟩)
      ).test_batch_size = 16 ∧
    (MnistPoptorch.hyperparameters (MnistPoptorch.parse_args
      ⟨some 4, some 25, some 16, some 2, some (1 / 10)⟩)).epochs
      = 2 ∧
    (MnistPoptorch.training_model (MnistPoptorch.hyperparameters
      (MnistPoptorch.parse_args
        ⟨some 4, some 25, some 16, some 2, some (1 / 10)⟩))).lr = 1 / 10 ∧
    (MnistPoptorch.training_data (MnistPoptorch.hyperparameters
      (MnistPoptorch.parse_args
        ⟨some 4, some 25, some 16, some 2, some (1 / 10)⟩))).batch_size
      = 4 ∧
    (MnistPoptorch.hyperparameters (MnistPoptorch.parse_args
      ⟨some 4, some 25, some 16, some 2, some (1 / 10)⟩)
      ).device_iterations = 50 ∧
    (MnistPoptorch.training_model (MnistPoptorch.hyperparameters
      (MnistPoptorch.parse_args
        ⟨some 4, some 25, some 16, some 2, some (1 / 10)⟩))
      ).options.deviceIterationsVal = 50 ∧
    (MnistPoptorch.training_data (MnistPoptorch.hyperparameters
      (MnistPoptorch.parse_args
        ⟨some 4, some 25, some 16, some 2, some (1 / 10)⟩))
      ).options.deviceIterationsVal = 50 :=
  cli_flags_configure_training
    ⟨some 4, some 25, some 16, some 2, some (1 / 10)⟩
    4 16 2 (1 / 10) rfl rfl rfl rfl

/-- C9: for every wrapped model `m`, input `x` and labels `l`,
`TrainingModelWithLoss(m).forward(x, None)` returns exactly `m`'s output
on `x` with no loss, and `forward(x, l)` returns the pair of `m`'s output
and the stored cross-entropy loss of that output against `l`. -/
theorem training_model_with_loss_forward {α β γ δ : Type}
    (crossEntropyLoss : β → γ → δ) (m : α → β) (x : α) (l : γ) :
    (MnistPoptorch.TrainingModelWithLoss.forward ⟨m, crossEntropyLoss⟩ x none
      = Sum.inl (m x)) ∧
    (MnistPoptorch.TrainingModelWithLoss.forward ⟨m, crossEntropyLoss⟩ x
      (some l) = Sum.inr (m x, crossEntropyLoss (m x) l)) :=
  ⟨rfl, rfl⟩

/-! ### FashionMNIST basics tutorial
(`tutorials/pytorch/tut1_basics/walkthrough_code_only.py`) -/

namespace Tut1

/-- Embeds `sklearn.metrics.accuracy_score(labels, predictions)` as the
external library computes it: the fraction of positions where label and
prediction agree. -/
def accuracy_score (labels preds : List Int) : Rat :=
  (((labels.zip preds).countP (fun p => p.1 == p.2) : Nat) : Rat)
    / (labels.length : Rat)

/-- Embeds the printed evaluation accuracy (walkthrough line 108):
`100 * accuracy_score(labels, predictions)`. -/
def eval_accuracy (labels preds : List Int) : Rat :=
  100 * accuracy_score labels preds

end Tut1

/-- Helper: folding `+` over a list from `a` adds the list sum to `a`. -/
theorem foldl_add_eq_add_sum (l : List Rat) (a : Rat) :
    l.foldl (fun s x => s + x) a = a + l.sum := by
  induction l generalizing a with
  | nil => simp
  | cons x xs ih => simp [List.foldl_cons, ih, List.sum_cons]; ring

/-- C6: every accuracy the scripts report is between 0 and 100: the
PopTorch MNIST test accuracy `sum_acc / len(test_data)` lies in [0, 100]
whenever the test loader is non-empty and each per-batch accuracy lies in
[0, 100]; and the FashionMNIST tutorial's printed evaluation accuracy
`100 * accuracy_score(labels, predictions)` lies in [0, 100] for every
non-empty label list. -/
theorem reported_accuracies_in_range (accs : List Rat)
    (labels preds : List Int)
    (hne : accs ≠ []) (hrange : ∀ a ∈ accs, 0 ≤ a ∧ a ≤ 100)
    (hlne : labels ≠ []) :
    (0 ≤ MnistPoptorch.reported_test_accuracy accs ∧
      MnistPoptorch.reported_test_accuracy accs ≤ 100) ∧
    (0 ≤ Tut1.eval_accuracy labels preds ∧
      Tut1.eval_accuracy labels preds ≤ 100) := by
  have hsum : MnistPoptorch.sum_acc accs = accs.sum := by
    simpa using foldl_add_eq_add_sum accs 0
  have hlen : (0 : Rat) < (accs.length : Rat) := by
    exact_mod_cast List.length_pos.mpr hne
  have h0 : 0 ≤ accs.sum := List.sum_nonneg fun a ha => (hrange a ha).1
  have h100 : accs.sum ≤ accs.length • (100 : Rat) :=
    List.sum_le_card_nsmul accs 100 fun a ha => (hrange a ha).2
  rw [nsmul_eq_mul] at h100
  have hcount : ((labels.zip preds).countP (fun p => p.1 == p.2)
      : Nat) ≤ labels.length :=
    le_trans (List.countP_le_length _)
      (by rw [List.length_zip]; exact min_le_left _ _)
  have hlpos : (0 : Rat) < (labels.length : Rat) := by
    exact_mod_cast List.length_pos.mpr hlne
  have hscore0 : 0 ≤ Tut1.accuracy_score labels preds :=
    div_nonneg (by positivity) hlpos.le
  have hscore1 : Tut1.accuracy_score labels preds ≤ 1 := by
    rw [Tut1.accuracy_score, div_le_one hlpos]
    exact_mod_cast hcount
  refine ⟨⟨?_, ?_⟩, ?_, ?_⟩
  · rw [MnistPoptorch.reported_test_accuracy, hsum]
    exact div_nonneg h0 hlen.le
  · rw [MnistPoptorch.reported_test_accuracy, hsum, div_le_iff₀ hlen]
    calc accs.sum ≤ (accs.length : Rat) * 100 := h100
      _ = 100 * (accs.length : Rat) := by ring
  · exact mul_nonneg (by norm_num) hscore0
  · calc Tut1.eval_accuracy labels preds
        = 100 * Tut1.accuracy_score labels preds := rfl
      _ ≤ 100 * 1 := by
          exact mul_le_mul_of_nonneg_left hscore1 (by norm_num)
      _ = 100 := by norm_num

/-- Witness for C6 with one batch accuracy of 50 and a half-right
prediction list. -/
theorem reported_accuracies_in_range_witness :
    (0 ≤ MnistPoptorch.reported_test_accuracy [(50 : Rat)] ∧
      MnistPoptorch.reported_test_accuracy [(50 : Rat)] ≤ 100) ∧
    (0 ≤ Tut1.eval_accuracy [1, 2] [1, 3] ∧
      Tut1.eval_accuracy [1, 2] [1, 3] ≤ 100) :=
  reported_accuracies_in_range [(50 : Rat)] [1, 2] [1, 3]
    (by simp) (by norm_num) (by simp)

/-! ### Efficient data loading tutorial
(`tutorials/pytorch/tut2_efficient_data_loading/walkthrough_code_only.py`) -/

namespace Tut2

/-- Combined batch size of a `poptorch.DataLoader`: the external loader
pulls `batch_size * device_iterations * replicas` samples per step. -/
def combined_batch_size (bs dit repl : Nat) : Nat := bs * dit * repl

/-- Length of a `poptorch.DataLoader` over a dataset of `n` samples with
`drop_last=True`: the number of full combined batches. -/
def dataloader_len (n bs dit repl : Nat) : Nat :=
  n / combined_batch_size bs dit repl

/-- Embeds the throughput expression used at walkthrough lines 100, 138,
164 and 179: `(steps * device_iterations * batch_size * replicas) /
t.seconds`. -/
def items_per_second (steps dit bs repl : Nat) (seconds : Rat) : Rat :=
  ((steps * dit * bs * repl : Nat) : Rat) / seconds

/-- Embeds the measurement part of `validate_model_performance`
(walkthrough lines 145-183): `steps = len(training_data)`, then the two
printed throughputs, each `(steps * device_iterations * batch_size *
replicas) / t.seconds` with its own timer reading. -/
def validate_model_performance (n dit bs repl : Nat)
    (loader_seconds run_seconds : Rat) : Rat × Rat :=
  let steps := dataloader_len n bs dit repl
  (items_per_second steps dit bs repl loader_seconds,
   items_per_second steps dit bs repl run_seconds)

/-- Events a loader object sees in the walkthrough: construction,
an iteration over it, and the `terminate()` teardown call. -/
inductive LoaderEvent where
  | create : Nat → LoaderEvent
  | iterate : Nat → LoaderEvent
  | terminate : Nat → LoaderEvent
deriving DecidableEq

/-- Loader events of one `validate_model_performance` call (walkthrough
lines 145-183): create the async loader, iterate it inside the first
timer, iterate it again in the second timer only when `synthetic_data`
is false (the synthetic branch replays a cached batch instead), then
call `terminate()`. -/
def validate_model_performance_events (id : Nat) (synthetic_data : Bool) :
    List LoaderEvent :=
  [LoaderEvent.create id, LoaderEvent.iterate id]
    ++ (if synthetic_data then [] else [LoaderEvent.iterate id])
    ++ [LoaderEvent.terminate id]

/-- Loader events of the whole script, in program order: the first async
loader (lines 74-103: created, iterated in the timed loop, terminated),
the second async loader (lines 115-142: created, iterated once by
`next(iter(training_data))`, terminated after the synthetic-data timing
loop that does not touch it), then the four `validate_model_performance`
calls (lines 186-200) with `synthetic_data` True, False, True, False. -/
def script_events : List LoaderEvent :=
  [LoaderEvent.create 0, LoaderEvent.iterate 0, LoaderEvent.terminate 0,
   LoaderEvent.create 1, LoaderEvent.iterate 1, LoaderEvent.terminate 1]
    ++ validate_model_performance_events 2 true
    ++ validate_model_performance_events 3 false
    ++ validate_model_performance_events 4 true
    ++ validate_model_performance_events 5 false

end Tut2

/-- C7: the reported throughput in items per second equals the number of
loader steps (`len(training_data)`) times device iterations times batch
size times the replication factor, divided by the wall-clock seconds of
the timer around the corresponding loop; moreover that numerator is the
dataset size rounded down to a multiple of the combined batch size. -/
theorem throughput_formula (n dit bs repl : Nat) (t1 t2 : Rat)
    (h1 : 0 < t1) (h2 : 0 < t2) :
    (Tut2.validate_model_performance n dit bs repl t1 t2).1
      = ((Tut2.dataloader_len n bs dit repl * dit * bs * repl : Nat) : Rat)
        / t1 ∧
    (Tut2.validate_model_performance n dit bs repl t1 t2).2
      = ((Tut2.dataloader_len n bs dit repl * dit * bs * repl : Nat) : Rat)
        / t2 ∧
    Tut2.dataloader_len n bs dit repl * dit * bs * repl
      = n - n % (bs * dit * repl) := by
  refine ⟨rfl, rfl, ?_⟩
  rw [sub_mod_eq_div_mul]
  unfold Tut2.dataloader_len Tut2.combined_batch_size
  ring

/-- Witness for C7 at `n = 10000`, 50 device iterations, batch size 16,
1 replica and timer readings 2 and 1. -/
theorem throughput_formula_witness :
    (Tut2.validate_model_performance 10000 50 16 1 2 1).1
      = ((Tut2.dataloader_len 10000 16 50 1 * 50 * 16 * 1 : Nat) : Rat)
        / 2 ∧
    (Tut2.validate_model_performance 10000 50 16 1 2 1).2
      = ((Tut2.dataloader_len 10000 16 50 1 * 50 * 16 * 1 : Nat) : Rat)
        / 1 ∧
    Tut2.dataloader_len 10000 16 50 1 * 50 * 16 * 1
      = 10000 - 10000 % (16 * 50 * 1) :=
  throughput_formula 10000 50 16 1 2 1 (by norm_num) (by norm_num)

/-- C8: every asynchronous data loader the script creates has
`terminate()` called on it exactly once; every `terminate` comes after at
least one iteration of that loader, and no iteration of a loader occurs
after its `terminate`. -/
theorem loader_terminated_once_after_iteration (id : Nat)
    (h : Tut2.LoaderEvent.create id ∈ Tut2.script_events) :
    Tut2.script_events.count (Tut2.LoaderEvent.terminate id) = 1 ∧
    (∀ i j : Fin Tut2.script_events.length,
      Tut2.script_events.get i = Tut2.LoaderEvent.terminate id →
      Tut2.script_events.get j = Tut2.LoaderEvent.iterate id →
      (j : Nat) < (i : Nat)) ∧
    (∀ i : Fin Tut2.script_events.length,
      Tut2.script_events.get i = Tut2.LoaderEvent.terminate id →
      ∃ j : Fin Tut2.script_events.length, (j : Nat) < (i : Nat) ∧
        Tut2.script_events.get j = Tut2.LoaderEvent.iterate id) := by
  have hid : id = 0 ∨ id = 1 ∨ id = 2 ∨ id = 3 ∨ id = 4 ∨ id = 5 := by
    simp [Tut2.script_events, Tut2.validate_model_performance_events] at h
    tauto
  rcases hid with rfl | rfl | rfl | rfl | rfl | rfl <;> exact by decide

/-- Witness for C8 at the first loader (id 0). -/
theorem loader_terminated_once_witness :
    Tut2.script_events.count (Tut2.LoaderEvent.terminate 0) = 1 :=
  (loader_terminated_once_after_iteration 0 (by decide)).1

/-! ### TensorFlow 2 MNIST script
(`simple_applications/tensorflow2/mnist/mnist_code_only.py`) -/

namespace TF2Mnist

/-- Embeds the version check (mnist lines 7-8):
`if tf.__version__[0] != '2': raise ImportError(...)`.  The version
string is a list of characters; `none` models the `IndexError` Python
would raise on an empty string, otherwise `some b` where `b` says whether
the `ImportError` is raised. -/
def version_check_raises (v : List Char) : Option Bool :=
  match v with
  | [] => none
  | c :: _ => some (c != '2')

/-- Numeric value of a decimal digit character. -/
def digit_val (c : Char) : Nat := c.toNat - 48

/-- Major version of a version string, following the spec's words
("major framework version"): the decimal numeral before the first dot.
Used to compare the code's first-character check against the spec. -/
def major_version (v : List Char) : Nat :=
  (v.takeWhile (fun c => c != '.')).foldl (fun a c => 10 * a + digit_val c) 0

end TF2Mnist

/-- C4 counterexample: on version string "25.0.0" the installed
TensorFlow is not major version 2, yet the check does not raise: it only
compares the first character of the version string with '2'. -/
theorem version_check_counterexample :
    TF2Mnist.major_version ['2', '5', '.', '0', '.', '0'] = 25 ∧
    TF2Mnist.major_version ['2', '5', '.', '0', '.', '0'] ≠ 2 ∧
    TF2Mnist.version_check_raises ['2', '5', '.', '0', '.', '0']
      = some false := by
  decide

/-- C4 amended: the check raises an `ImportError` if and only if the
first character of the version string is not '2'; for version strings
whose major version is a single digit followed by a dot (or the whole
string), this is exactly "the major version is not 2". -/
theorem version_check_major (d : Nat) (rest : List Char)
    (hd : d < 10) (hrest : rest = [] ∨ rest.head? = some '.') :
    TF2Mnist.major_version (Nat.digitChar d :: rest) = d ∧
    (TF2Mnist.version_check_raises (Nat.digitChar d :: rest) = some true
      ↔ TF2Mnist.major_version (Nat.digitChar d :: rest) ≠ 2) := by
  have hfacts : ∀ e : Nat, e < 10 →
      ((Nat.digitChar e != '2') = decide (e ≠ 2)) ∧
      ((Nat.digitChar e != '.') = true) ∧
      (TF2Mnist.digit_val (Nat.digitChar e) = e) := by decide
  obtain ⟨hf1, hf2, hf3⟩ := hfacts d hd
  have hdot : (('.' : Char) != '.') = false := by decide
  have hmv : TF2Mnist.major_version (Nat.digitChar d :: rest) = d := by
    rcases hrest with rfl | hh
    · simp [TF2Mnist.major_version, List.takeWhile_cons, hf2,
        List.foldl, hf3]
    · rcases rest with _ | ⟨r, t⟩
      · simp at hh
      · have hr : r = '.' := by simpa using hh
        subst hr
        simp [TF2Mnist.major_version, List.takeWhile_cons, hf2, hdot,
          List.foldl, hf3]
  refine ⟨hmv, ?_⟩
  rw [hmv]
  show some (Nat.digitChar d != '2') = some true ↔ d ≠ 2
  rw [hf1]
  simp

/-- Witness for C4 amended at version "3.0". -/
theorem version_check_major_witness :
    TF2Mnist.major_version (Nat.digitChar 3 :: ['.', '0']) = 3 ∧
    (TF2Mnist.version_check_raises (Nat.digitChar 3 :: ['.', '0'])
      = some true
      ↔ TF2Mnist.major_version (Nat.digitChar 3 :: ['.', '0']) ≠ 2) :=
  version_check_major 3 ['.', '0'] (by decide) (Or.inr rfl)

/-! ### Imports across the repository (self-containedness) -/

namespace Repo

/-- The seven source files of the repository. -/
inductive Script where
  | mnist_poptorch
  | tf2_mnist
  | pt_tut1
  | pt_tut2
  | keras_demo
  | tf1_example
  | tf1_example_gpu
deriving DecidableEq

/-- Top-level modules imported by each source file, read off its `import`
statements. -/
def imports : Script → List String
  | .mnist_poptorch =>
      ["tqdm", "torch", "torchvision", "poptorch", "argparse", "metrics"]
  | .tf2_mnist => ["tensorflow"]
  | .pt_tut1 =>
      ["torch", "poptorch", "torchvision", "matplotlib", "tqdm", "sklearn"]
  | .pt_tut2 => ["__main__", "time", "sys", "poptorch", "torch"]
  | .keras_demo => ["tensorflow", "numpy"]
  | .tf1_example => ["tensorflow", "time"]
  | .tf1_example_gpu => ["tensorflow", "time"]

/-- Modelled from the spec: the external framework and standard-library
modules the scripts may depend on ("executing any one script requires
only that script plus the external framework libraries").  Any other
imported name resolves repository-locally; in particular `metrics`, the
helper module shipped next to the PopTorch MNIST script, which is part of
the repository but not under src/. -/
def external_modules : List String :=
  ["argparse", "time", "sys", "__main__", "torch", "torchvision",
   "poptorch", "tqdm", "matplotlib", "sklearn", "tensorflow", "numpy"]

/-- A module name that is not an external framework or standard-library
module resolves to a repository-local file. -/
def repository_local (m : String) : Bool := !(external_modules.contains m)

end Repo

/-- C5 counterexample: the PopTorch MNIST script references a name
(`accuracy`, via `from metrics import accuracy` on line 145) that
resolves to the repository-local module `metrics` outside the script
itself, so not every script is self-contained. -/
theorem metrics_import_counterexample :
    "metrics" ∈ Repo.imports Repo.Script.mnist_poptorch ∧
    Repo.repository_local "metrics" = true := by
  decide

/-- C5 amended: every module imported by any script is an external
framework or standard-library module, with the single exception of the
PopTorch MNIST script's import of the repository-local `metrics`
module. -/
theorem scripts_self_contained (s : Repo.Script) (m : String)
    (h : m ∈ Repo.imports s) :
    Repo.repository_local m = false ∨
    (s = Repo.Script.mnist_poptorch ∧ m = "metrics") := by
  cases s <;> simp only [Repo.imports] at h <;> fin_cases h <;> decide

/-- Witness for C5 amended: the TensorFlow 2 MNIST script's only import
is the external `tensorflow`. -/
theorem scripts_self_contained_witness :
    Repo.repository_local "tensorflow" = false ∨
    (Repo.Script.tf2_mnist = Repo.Script.mnist_poptorch ∧
      "tensorflow" = "metrics") :=
  scripts_self_contained Repo.Script.tf2_mnist "tensorflow" (by decide)

end Tutorials
